import Mathlib

/-!
Verification development for the Equity-Investing-Project valuation engine.

The definitions below are a shallow embedding of the deterministic
valuation core of the repository: the sector-rules resolver
(backend/industry_config.py), the DCF projection arithmetic
(backend/dcf.py), the DDM models (backend/ddm.py), the comps median
(backend/comps.py), and the two recalculation endpoints (main.py).
Machine floats are modelled as exact rationals; Python float rounding
(round half to even) is modelled by pyRound.
-/

/-- Model of the Python builtin round(x, ndigits) on a rational value:
round half to even at the given number of decimal digits. -/
def pyRound (q : ℚ) (d : ℕ) : ℚ :=
  let m := q * (10 : ℚ) ^ d
  let f : ℤ := ⌊m⌋
  let r := m - (f : ℚ)
  let n : ℤ :=
    if (1 : ℚ) / 2 < r then f + 1
    else if r < (1 : ℚ) / 2 then f
    else if f % 2 = 0 then f else f + 1
  (n : ℚ) / (10 : ℚ) ^ d

theorem pyRound_zero (d : ℕ) : pyRound 0 d = 0 := by
  simp [pyRound]

/-- Model of the Python substring test used below: does the second list
occur at the head of the first list. -/
def strStartsWith : List Char → List Char → Bool
  | _, [] => true
  | [], _ :: _ => false
  | c :: cs, d :: ds => c == d && strStartsWith cs ds

/-- Model of the Python substring test: does the needle occur anywhere in
the hay. -/
def strHasSub : List Char → List Char → Bool
  | [], needle => needle.isEmpty
  | c :: cs, needle => strStartsWith (c :: cs) needle || strHasSub cs needle

/-! Constants from backend/config.py. -/

def PROJECTION_YEARS : ℕ := 5

def ACTUALS_YEARS : ℕ := 5

def TAX_RATE : ℚ := 21 / 100

def DEFAULT_EXIT_PE : ℚ := 20

def MIN_GROWTH_RATE : ℚ := 3 / 100

namespace industry_config

/-- SectorRules dataclass from backend/industry_config.py. -/
structure SectorRules where
  sector_label : String
  growth_recency_bias : ℚ
  growth_cap : ℚ
  growth_floor : ℚ
  wacc_cap : Option ℚ
  dcf_appropriate : Bool
  dcf_warning : Option String
  analyst_guidance : String

def _TECHNOLOGY : SectorRules :=
  { sector_label := "Technology"
    growth_recency_bias := 2
    growth_cap := 40 / 100
    growth_floor := 5 / 100
    wacc_cap := some (14 / 100)
    dcf_appropriate := true
    dcf_warning := none
    analyst_guidance := "Focus on competitive moats, R&D investment efficiency, and market share dynamics." }

def _ENERGY : SectorRules :=
  { sector_label := "Energy"
    growth_recency_bias := 1
    growth_cap := 30 / 100
    growth_floor := 2 / 100
    wacc_cap := none
    dcf_appropriate := true
    dcf_warning := some "Energy companies are highly sensitive to commodity prices."
    analyst_guidance := "Emphasise commodity price sensitivity, reserve life and depletion rates, and capex intensity." }

def _FINANCIALS : SectorRules :=
  { sector_label := "Financial Services"
    growth_recency_bias := 1
    growth_cap := 25 / 100
    growth_floor := 2 / 100
    wacc_cap := none
    dcf_appropriate := false
    dcf_warning := some "DCF valuation is not appropriate for financial companies."
    analyst_guidance := "Focus on credit quality, net interest margin, capital adequacy ratios, and loan-loss provisioning." }

def _HEALTHCARE : SectorRules :=
  { sector_label := "Healthcare / Biotech"
    growth_recency_bias := 1
    growth_cap := 40 / 100
    growth_floor := 3 / 100
    wacc_cap := none
    dcf_appropriate := true
    dcf_warning := some "Healthcare and biotech projections carry elevated uncertainty."
    analyst_guidance := "Emphasise drug pipeline risk, regulatory approval probabilities, and patent expiry timelines." }

def _CONSUMER_STAPLES : SectorRules :=
  { sector_label := "Consumer Staples / Retail"
    growth_recency_bias := 1
    growth_cap := 20 / 100
    growth_floor := 2 / 100
    wacc_cap := none
    dcf_appropriate := true
    dcf_warning := none
    analyst_guidance := "Focus on pricing power relative to input cost inflation, brand loyalty, and private-label competitive pressure." }

def _DEFAULT : SectorRules :=
  { sector_label := "General"
    growth_recency_bias := 1
    growth_cap := 40 / 100
    growth_floor := 3 / 100
    wacc_cap := none
    dcf_appropriate := true
    dcf_warning := none
    analyst_guidance := "Provide a balanced assessment of competitive positioning, revenue growth sustainability, margin trajectory, and capital allocation efficiency." }

/-- get_sector_rules from backend/industry_config.py: case-insensitive
substring match against the ordered category keyword sets, first match
wins, default fallback. -/
def get_sector_rules (sector : String) : SectorRules :=
  let s : List Char := sector.toList.map Char.toLower
  if ["tech", "software", "semiconductor", "information"].any (fun k => strHasSub s k.toList) then _TECHNOLOGY
  else if ["energy", "oil", "gas", "mining"].any (fun k => strHasSub s k.toList) then _ENERGY
  else if ["financial", "bank", "insurance", "asset management", "brokerage"].any (fun k => strHasSub s k.toList) then _FINANCIALS
  else if ["health", "biotech", "pharma", "life science", "medical"].any (fun k => strHasSub s k.toList) then _HEALTHCARE
  else if ["consumer staple", "consumer defensive", "food", "beverage", "household", "retail"].any (fun k => strHasSub s k.toList) then _CONSUMER_STAPLES
  else _DEFAULT

end industry_config

namespace dcf

/-- The recency-weighted growth helper of backend/dcf.py
(function named there with a single leading underscore): linear
descending weights over a newest-first list, the newest weight boosted
by the sector recency bias when that bias differs from 1, the weighted
mean clamped into the sector growth floor/cap; the floor is returned for
an empty list. -/
def _weighted_growth (values : List ℚ) (sector_rules : industry_config.SectorRules) : ℚ :=
  if values = [] then sector_rules.growth_floor
  else
    let n := values.length
    let weights0 := (List.range n).map (fun i => ((n - i : ℕ) : ℚ))
    let weights :=
      if sector_rules.growth_recency_bias ≠ 1 then
        match weights0 with
        | [] => []
        | w :: ws => w * sector_rules.growth_recency_bias :: ws
      else weights0
    let total_w := weights.sum
    let raw := (List.zipWith (fun w g => w * g) weights values).sum / total_w
    max sector_rules.growth_floor (min sector_rules.growth_cap raw)

/-- Per-iteration state of the projection loop in
_compute_initial_projections of backend/dcf.py.  The revenues field is a
pure observation trace of the projected revenue of each year (the Python
loop keeps it only in the loop variable rev); nothing in the arithmetic
reads it. -/
structure ProjState where
  prev_rev : ℚ
  prev_shares : ℚ
  pv_fcfs : ℚ
  last_net_income : ℚ
  revenues : List ℚ

/-- One iteration of the projection loop of _compute_initial_projections
in backend/dcf.py (loop body for year t). -/
def projYear (interest_expense cost_of_equity revenue_growth op_margin tax_rate capex_pct da_pct shares_growth : ℚ)
    (t : ℕ) (st : ProjState) : ProjState :=
  let rev := st.prev_rev * (1 + revenue_growth)
  let op_inc := rev * op_margin
  let pretax := op_inc - interest_expense
  let tax := if pretax > 0 then pretax * tax_rate else 0
  let net_income := pretax - tax
  let shares := st.prev_shares * (1 + shares_growth)
  let capex := rev * capex_pct
  let da := rev * da_pct
  let fcf := net_income + da - capex
  { prev_rev := rev
    prev_shares := shares
    pv_fcfs := st.pv_fcfs + fcf / (1 + cost_of_equity) ^ t
    last_net_income := net_income
    revenues := st.revenues ++ [rev] }

/-- The full projection loop of _compute_initial_projections in
backend/dcf.py, run for PROJECTION_YEARS years with uniform assumptions. -/
def initialProjState (base_revenue base_diluted_shares interest_expense revenue_growth op_margin tax_rate capex_pct da_pct shares_growth cost_of_equity : ℚ) : ProjState :=
  (List.range PROJECTION_YEARS).foldl
    (fun st i =>
      projYear interest_expense cost_of_equity revenue_growth op_margin tax_rate capex_pct da_pct shares_growth (i + 1) st)
    { prev_rev := base_revenue
      prev_shares := base_diluted_shares
      pv_fcfs := 0
      last_net_income := 0
      revenues := [] }

/-- _compute_initial_projections from backend/dcf.py: returns
(pv_fcfs, pv_tv, equity_value, intrinsic_value). -/
def _compute_initial_projections (base_revenue base_diluted_shares interest_expense revenue_growth op_margin tax_rate capex_pct da_pct shares_growth exit_pe cost_of_equity : ℚ) : ℚ × ℚ × ℚ × ℚ :=
  let fin := initialProjState base_revenue base_diluted_shares interest_expense revenue_growth op_margin tax_rate capex_pct da_pct shares_growth cost_of_equity
  let tv := fin.last_net_income * exit_pe
  let pv_tv := tv / (1 + cost_of_equity) ^ PROJECTION_YEARS
  let equity_value := fin.pv_fcfs + pv_tv
  let iv := if base_diluted_shares > 0 then equity_value / base_diluted_shares else 0
  (fin.pv_fcfs, pv_tv, equity_value, iv)

end dcf

namespace ddm

/-- The recency-weighted growth helper of backend/ddm.py (named there
with a single leading underscore, a separate function from the one in
backend/dcf.py): plain linear descending weights over a newest-first
list, no recency-bias boost, no clamping, and 0.0 for an empty list. -/
def _weighted_growth (rates : List ℚ) : ℚ :=
  if rates = [] then 0
  else
    let n := rates.length
    let weights := (List.range n).map (fun i => ((n - i : ℕ) : ℚ))
    let total_w := weights.sum
    (List.zipWith (fun w g => w * g) weights rates).sum / total_w

/-- _compute_ggm from backend/ddm.py: Gordon Growth Model
P = D1 / (Re - g), returning 0 when the denominator or D1 is
non-positive. -/
def _compute_ggm (d1 cost_of_equity g : ℚ) : ℚ :=
  let denom := cost_of_equity - g
  if denom ≤ 0 ∨ d1 ≤ 0 then 0 else d1 / denom

/-- _compute_two_stage from backend/ddm.py: two-stage DDM returning
(pv_stage1, pv_terminal, intrinsic_value); when Re - g2 is non-positive
the terminal component is 0 and the intrinsic value is the stage-1 PV. -/
def _compute_two_stage (latest_dps g1 : ℚ) (n : ℕ) (g2 re : ℚ) : ℚ × ℚ × ℚ :=
  let s1 := (List.range n).foldl
    (fun (p : ℚ × ℚ) t =>
      let dv := p.2 * (1 + g1)
      (p.1 + dv / (1 + re) ^ (t + 1), dv))
    (0, latest_dps)
  let pv_stage1 := s1.1
  let d_terminal := s1.2 * (1 + g2)
  let denom := re - g2
  if denom ≤ 0 then (pv_stage1, 0, pv_stage1)
  else
    let tv := d_terminal / denom
    let pv_terminal := tv / (1 + re) ^ n
    (pv_stage1, pv_terminal, pv_stage1 + pv_terminal)

/-- The outlier filter applied to year-over-year DPS growth observations
in step 5 of fetch_ddm (backend/ddm.py): keep only observations in
[-0.50, 1.00]. -/
def clean_growth_rates (growth_rates : List ℚ) : List ℚ :=
  growth_rates.filter (fun g => decide (-(1 : ℚ) / 2 ≤ g) && decide (g ≤ 1))

/-- avg_growth derivation in step 5 of fetch_ddm (backend/ddm.py):
simple average of the filtered observations, defaulting to 0.02 when
none survive the filter. -/
def avg_dps_growth (growth_rates : List ℚ) : ℚ :=
  let clean := clean_growth_rates growth_rates
  if clean = [] then 2 / 100 else clean.sum / (clean.length : ℚ)

/-- w_growth derivation in step 5 of fetch_ddm (backend/ddm.py):
recency-weighted average of the filtered observations (reversed to
newest first), defaulting to 0.02 when none survive the filter. -/
def weighted_dps_growth (growth_rates : List ℚ) : ℚ :=
  let clean := clean_growth_rates growth_rates
  if clean = [] then 2 / 100 else _weighted_growth clean.reverse

end ddm

namespace comps

/-- CompEntry dataclass from backend/comps.py: one normalized peer
entity; missing metrics are none, the analysis target is flagged. -/
structure CompEntry where
  ticker : String
  company_name : String
  market_cap : ℚ
  sector : String
  industry : String
  price : ℚ
  pe_ratio : Option ℚ := none
  ev_to_ebitda : Option ℚ := none
  price_to_sales : Option ℚ := none
  price_to_book : Option ℚ := none
  ev_to_revenue : Option ℚ := none
  peg_ratio : Option ℚ := none
  gross_margin : Option ℚ := none
  operating_margin : Option ℚ := none
  net_margin : Option ℚ := none
  roe : Option ℚ := none
  roic : Option ℚ := none
  revenue_growth : Option ℚ := none
  eps_growth : Option ℚ := none
  dividend_yield : Option ℚ := none
  debt_to_equity : Option ℚ := none
  is_target : Bool := false

/-- The median helper of backend/comps.py (named there with a single
leading underscore): drop missing and non-positive values, sort
ascending, return none for an empty result, the middle element for an
odd count, and the mean of the two middle elements for an even count. -/
def _median (values : List (Option ℚ)) : Option ℚ :=
  let clean := List.insertionSort (· ≤ ·) ((values.filterMap id).filter (fun v => decide (0 < v)))
  if clean = [] then none
  else
    let n := clean.length
    let mid := n / 2
    if n % 2 = 0 then some ((clean.getD (mid - 1) 0 + clean.getD mid 0) / 2)
    else some (clean.getD mid 0)

/-- Step 3 of fetch_comps (backend/comps.py): cross-sectional medians of
the four multiples over the non-target entries only. -/
def peer_medians (entries : List CompEntry) : Option ℚ × Option ℚ × Option ℚ × Option ℚ :=
  let peer_entries := entries.filter (fun e => !e.is_target)
  (_median (peer_entries.map (fun e => e.pe_ratio)),
   _median (peer_entries.map (fun e => e.ev_to_ebitda)),
   _median (peer_entries.map (fun e => e.price_to_sales)),
   _median (peer_entries.map (fun e => e.price_to_book)))

end comps

namespace main

/-- RecalculateRequest model from main.py. -/
structure RecalculateRequest where
  base_revenue : ℚ
  base_diluted_shares : ℚ
  interest_expense : ℚ
  growth_rates : List ℚ
  op_margins : List ℚ
  tax_rates : List ℚ
  capex_pcts : List ℚ
  da_pcts : List ℚ
  shares_growths : List ℚ
  exit_pe_multiple : ℚ
  cost_of_equity : ℚ
  current_price : ℚ

/-- RecalculateResponse model from main.py. -/
structure RecalculateResponse where
  intrinsic_value : ℚ
  upside_downside : ℚ
  pv_fcfs : ℚ
  pv_terminal_value : ℚ
  equity_value : ℚ

/-- The list_fields table built at the top of recalculate_dcf in
main.py: the six per-year override arrays, in source order, each paired
with its name. -/
def list_fields (req : RecalculateRequest) : List (String × List ℚ) :=
  [("growth_rates", req.growth_rates),
   ("op_margins", req.op_margins),
   ("tax_rates", req.tax_rates),
   ("capex_pcts", req.capex_pcts),
   ("da_pcts", req.da_pcts),
   ("shares_growths", req.shares_growths)]

/-- The validation loop of recalculate_dcf in main.py: the first array
whose length differs from PROJECTION_YEARS produces the 422 detail
message naming that array; none means validation passed. -/
def checkLists : List (String × List ℚ) → Option String
  | [] => none
  | (nm, lst) :: rest =>
    if lst.length ≠ PROJECTION_YEARS then
      some (nm ++ " must have exactly " ++ toString PROJECTION_YEARS ++ " values (got " ++ toString lst.length ++ ").")
    else checkLists rest

/-- recalculate_dcf from main.py: validates the six per-year arrays,
then re-runs the five-year projection with per-year assumptions
(the loop body is a separate copy of the arithmetic, as in the source)
and returns the rounded valuation bridge.  The state tuple is
(prev_revenue, prev_shares, pv_fcfs, last_net_income). -/
def recalculate_dcf (req : RecalculateRequest) : Except String RecalculateResponse :=
  match checkLists (list_fields req) with
  | some msg => Except.error msg
  | none =>
    let fin := (List.range PROJECTION_YEARS).foldl
      (fun (st : ℚ × ℚ × ℚ × ℚ) i =>
        let revenue := st.1 * (1 + req.growth_rates.getD i 0)
        let op_income := revenue * req.op_margins.getD i 0
        let pretax := op_income - req.interest_expense
        let tax := if pretax > 0 then pretax * req.tax_rates.getD i 0 else 0
        let net_income := pretax - tax
        let shares := st.2.1 * (1 + req.shares_growths.getD i 0)
        let capex := revenue * req.capex_pcts.getD i 0
        let da := revenue * req.da_pcts.getD i 0
        let fcf := net_income + da - capex
        (revenue, shares, st.2.2.1 + fcf / (1 + req.cost_of_equity) ^ (i + 1), net_income))
      (req.base_revenue, req.base_diluted_shares, 0, 0)
    let tv := fin.2.2.2 * req.exit_pe_multiple
    let pv_tv := tv / (1 + req.cost_of_equity) ^ PROJECTION_YEARS
    let equity_value := fin.2.2.1 + pv_tv
    let intrinsic_value := if req.base_diluted_shares > 0 then equity_value / req.base_diluted_shares else 0
    let upside_downside := if req.current_price > 0 then (intrinsic_value - req.current_price) / req.current_price * 100 else 0
    Except.ok
      { intrinsic_value := pyRound intrinsic_value 2
        upside_downside := pyRound upside_downside 1
        pv_fcfs := pyRound fin.2.2.1 0
        pv_terminal_value := pyRound pv_tv 0
        equity_value := pyRound equity_value 0 }

/-- DDMRecalcRequest model from main.py. -/
structure DDMRecalcRequest where
  latest_annual_dps : ℚ
  current_price : ℚ
  cost_of_equity : ℚ
  ggm_growth_rate : ℚ
  ts_high_growth_rate : ℚ
  ts_high_growth_years : ℕ
  ts_terminal_growth_rate : ℚ

/-- DDMRecalcResponse model from main.py. -/
structure DDMRecalcResponse where
  ggm_d1 : ℚ
  ggm_intrinsic_value : ℚ
  ggm_upside_downside : ℚ
  ts_intrinsic_value : ℚ
  ts_pv_stage1 : ℚ
  ts_pv_terminal : ℚ
  ts_upside_downside : ℚ

/-- recalculate_ddm from main.py: recomputes the Gordon Growth and
two-stage DDM values from client overrides, returning the rounded
response; non-positive denominators yield zero components. -/
def recalculate_ddm (req : DDMRecalcRequest) : DDMRecalcResponse :=
  let re := req.cost_of_equity
  let dps := req.latest_annual_dps
  let price := req.current_price
  let ggm_g := req.ggm_growth_rate
  let ggm_d1 := dps * (1 + ggm_g)
  let denom := re - ggm_g
  let ggm_iv := if denom > 0 ∧ ggm_d1 > 0 then ggm_d1 / denom else 0
  let ggm_upside := if price > 0 ∧ ggm_iv > 0 then (ggm_iv - price) / price * 100 else 0
  let g1 := req.ts_high_growth_rate
  let n := req.ts_high_growth_years
  let g2 := req.ts_terminal_growth_rate
  let s1 := (List.range n).foldl
    (fun (p : ℚ × ℚ) t =>
      let dv := p.2 * (1 + g1)
      (p.1 + dv / (1 + re) ^ (t + 1), dv))
    (0, dps)
  let pv_stage1 := s1.1
  let d_terminal := s1.2 * (1 + g2)
  let denom2 := re - g2
  let pv_terminal := if denom2 > 0 then (d_terminal / denom2) / (1 + re) ^ n else 0
  let ts_iv := pv_stage1 + pv_terminal
  let ts_upside := if price > 0 ∧ ts_iv > 0 then (ts_iv - price) / price * 100 else 0
  { ggm_d1 := pyRound ggm_d1 4
    ggm_intrinsic_value := pyRound ggm_iv 2
    ggm_upside_downside := pyRound ggm_upside 1
    ts_intrinsic_value := pyRound ts_iv 2
    ts_pv_stage1 := pyRound pv_stage1 2
    ts_pv_terminal := pyRound pv_terminal 2
    ts_upside_downside := pyRound ts_upside 1 }

end main

/-! Helper lemmas shared by the claim theorems below. -/

theorem checkLists_eq_none {fields : List (String × List ℚ)}
    (h : ∀ p ∈ fields, (p.2).length = PROJECTION_YEARS) : main.checkLists fields = none := by
  induction fields with
  | nil => rfl
  | cons hd tl ih =>
    have hhd := h hd (List.mem_cons_self hd tl)
    have hno : ¬ ((hd.2).length ≠ PROJECTION_YEARS) := by simp [hhd]
    simp only [main.checkLists]
    rw [if_neg hno]
    exact ih (fun p hp => h p (List.mem_cons_of_mem hd hp))

theorem checkLists_bad {fields : List (String × List ℚ)}
    (h : ∃ p ∈ fields, (p.2).length ≠ PROJECTION_YEARS) :
    ∃ p ∈ fields, (p.2).length ≠ PROJECTION_YEARS ∧
      ∃ rest, main.checkLists fields = some (p.1 ++ rest) := by
  induction fields with
  | nil => simp at h
  | cons hd tl ih =>
    by_cases hhd : (hd.2).length ≠ PROJECTION_YEARS
    · refine ⟨hd, List.mem_cons_self hd tl, hhd, ?_⟩
      refine ⟨" must have exactly " ++ toString PROJECTION_YEARS ++ " values (got " ++ toString hd.2.length ++ ").", ?_⟩
      simp only [main.checkLists]
      rw [if_pos hhd]
      congr 1
      simp [String.append_assoc]
    · push_neg at hhd
      obtain ⟨p, hp, hlen⟩ := h
      rcases List.mem_cons.mp hp with rfl | hptl
      · exact absurd hhd hlen
      · obtain ⟨q, hq, hqlen, rest, hrest⟩ := ih ⟨p, hptl, hlen⟩
        refine ⟨q, List.mem_cons_of_mem hd hq, hqlen, rest, ?_⟩
        simp only [main.checkLists, hhd]
        simpa using hrest

theorem median_filter_stable (values : List (Option ℚ)) :
    comps._median values =
      comps._median (((values.filterMap id).filter (fun v => decide (0 < v))).map some) := by
  have key :
      List.filter (fun v => decide (0 < v))
          (List.filterMap id (((values.filterMap id).filter (fun v => decide (0 < v))).map some)) =
        List.filter (fun v => decide (0 < v)) (values.filterMap id) := by
    rw [List.filterMap_map]
    have h1 : (id ∘ some : ℚ → Option ℚ) = some := rfl
    rw [h1, List.filterMap_some, List.filter_filter]
    congr 1
    funext a
    exact Bool.and_self _
  simp only [comps._median, key]

theorem clean_growth_rates_idem (rates : List ℚ) :
    ddm.clean_growth_rates (ddm.clean_growth_rates rates) = ddm.clean_growth_rates rates := by
  simp only [ddm.clean_growth_rates, List.filter_filter]
  congr 1
  funext g
  cases h : (decide (-(1 : ℚ) / 2 ≤ g) && decide (g ≤ 1)) <;> simp [h]

/-- Claim C1: calling the DCF recalculation entry point with the exact
uniform base assumptions of the initial computation (each of the five
per-year override arrays filled with the same base value, plus the same
scalars) yields a valuation bridge (pv_fcfs, pv_terminal_value,
equity_value, intrinsic value) equal to the bridge of the initial
computation.  In the exact-rational model the two loops agree exactly,
which is stronger than agreement within floating-point tolerance. -/
theorem claim_C1_roundtrip (brv bsh ie g m tr cp dp sg pe re price : ℚ) :
  ∃ resp : main.RecalculateResponse,
    main.recalculate_dcf
      { base_revenue := brv, base_diluted_shares := bsh, interest_expense := ie,
        growth_rates := List.replicate 5 g, op_margins := List.replicate 5 m,
        tax_rates := List.replicate 5 tr, capex_pcts := List.replicate 5 cp,
        da_pcts := List.replicate 5 dp, shares_growths := List.replicate 5 sg,
        exit_pe_multiple := pe, cost_of_equity := re, current_price := price } = Except.ok resp ∧
    resp.pv_fcfs = pyRound (dcf._compute_initial_projections brv bsh ie g m tr cp dp sg pe re).1 0 ∧
    resp.pv_terminal_value = pyRound (dcf._compute_initial_projections brv bsh ie g m tr cp dp sg pe re).2.1 0 ∧
    resp.equity_value = pyRound (dcf._compute_initial_projections brv bsh ie g m tr cp dp sg pe re).2.2.1 0 ∧
    resp.intrinsic_value = pyRound (dcf._compute_initial_projections brv bsh ie g m tr cp dp sg pe re).2.2.2 2 :=
  ⟨_, rfl, rfl, rfl, rfl, rfl⟩

/-- Claim C2 counterexample: the growth primitive used by the DDM
dividend-growth derivation is a separate implementation that is not
parameterized by bounds: on the singleton [1] it returns 1, which lies
above the growth cap of every sector policy (the default cap is 0.40),
and on the empty list it returns 0, which differs from the default
growth floor 0.03; so it is not the case that one bounds-clamped
primitive is shared by both derivations. -/
theorem claim_C2_counterexample :
  ddm._weighted_growth [1] = 1 ∧
  ¬ ((1 : ℚ) ≤ industry_config._DEFAULT.growth_cap) ∧
  ddm._weighted_growth [] = 0 ∧
  industry_config._DEFAULT.growth_floor ≠ 0 := by
  refine ⟨?_, ?_, ?_, ?_⟩
  · norm_num [ddm._weighted_growth, List.range_succ]
  · norm_num [industry_config._DEFAULT]
  · norm_num [ddm._weighted_growth]
  · norm_num [industry_config._DEFAULT]

/-- Claim C2, amended: the DCF growth primitive (backend/dcf.py) does
satisfy the bound contract: whenever the sector floor does not exceed
the sector cap its result lies in [floor, cap], and the empty sequence
returns the floor; the DDM dividend-growth derivation however uses its
own separate, unbounded primitive (backend/ddm.py), which returns 0 for
the empty sequence. -/
theorem claim_C2_bounds :
  (∀ (sector_rules : industry_config.SectorRules) (values : List ℚ),
    (values = [] → dcf._weighted_growth values sector_rules = sector_rules.growth_floor) ∧
    (sector_rules.growth_floor ≤ sector_rules.growth_cap →
      sector_rules.growth_floor ≤ dcf._weighted_growth values sector_rules ∧
      dcf._weighted_growth values sector_rules ≤ sector_rules.growth_cap)) ∧
  ddm._weighted_growth [] = 0 := by
  refine ⟨?_, by norm_num [ddm._weighted_growth]⟩
  intro rules values
  constructor
  · intro hv
    simp [dcf._weighted_growth, hv]
  · intro hfc
    by_cases hv : values = []
    · simp only [dcf._weighted_growth, hv, if_pos]
      exact ⟨le_refl _, hfc⟩
    · simp only [dcf._weighted_growth, hv, if_neg]
      refine ⟨le_max_left _ _, ?_⟩
      exact max_le hfc (min_le_left _ _)

/-- Claim C2 witness: the amended bound contract evaluated for the
default sector policy on the empty list and on [1/2]. -/
theorem claim_C2_witness :
  dcf._weighted_growth [] industry_config._DEFAULT = industry_config._DEFAULT.growth_floor ∧
  industry_config._DEFAULT.growth_floor ≤ dcf._weighted_growth [1/2] industry_config._DEFAULT ∧
  dcf._weighted_growth [1/2] industry_config._DEFAULT ≤ industry_config._DEFAULT.growth_cap :=
  ⟨(claim_C2_bounds.1 industry_config._DEFAULT []).1 rfl,
   ((claim_C2_bounds.1 industry_config._DEFAULT [1/2]).2 (by norm_num [industry_config._DEFAULT])).1,
   ((claim_C2_bounds.1 industry_config._DEFAULT [1/2]).2 (by norm_num [industry_config._DEFAULT])).2⟩

/-- Claim C3 counterexample: at cost of equity 0.05 and growth 0.05 the
Gordon Growth model returns 0; had the model substituted a minimum
positive spread (for instance the 0.02 gap the specification mentions
for the WACC variant) and divided, the result for D1 = 1 would have been
the non-zero 1 / 0.02.  No valuation model in the code substitutes a
spread: each returns a zero component instead. -/
theorem claim_C3_counterexample :
  ddm._compute_ggm 1 (1/20) (1/20) = 0 ∧ (1 : ℚ) / (2/100) ≠ 0 := by
  constructor
  · norm_num [ddm._compute_ggm]
  · norm_num

/-- Claim C3, amended: in every valuation model, whenever the discount
rate does not exceed the growth rate used against it, the model returns
zero for the affected component (Gordon Growth intrinsic value, the
two-stage terminal component with the intrinsic value collapsing to the
stage-1 PV, and the same two components in the DDM recalculation
endpoint) rather than dividing by the non-positive denominator or
substituting a minimum spread. -/
theorem claim_C3_zero_guard :
  (∀ d1 re g : ℚ, re - g ≤ 0 → ddm._compute_ggm d1 re g = 0) ∧
  (∀ dps g1 g2 re : ℚ, ∀ n : ℕ, re - g2 ≤ 0 →
    (ddm._compute_two_stage dps g1 n g2 re).2.1 = 0 ∧
    (ddm._compute_two_stage dps g1 n g2 re).2.2 = (ddm._compute_two_stage dps g1 n g2 re).1) ∧
  (∀ req : main.DDMRecalcRequest,
    (req.cost_of_equity - req.ts_terminal_growth_rate ≤ 0 →
      (main.recalculate_ddm req).ts_pv_terminal = 0) ∧
    (req.cost_of_equity - req.ggm_growth_rate ≤ 0 →
      (main.recalculate_ddm req).ggm_intrinsic_value = 0)) := by
  refine ⟨?_, ?_, ?_⟩
  · intro d1 re g h
    simp only [ddm._compute_ggm]
    rw [if_pos (Or.inl h)]
  · intro dps g1 g2 re n h
    simp only [ddm._compute_two_stage]
    rw [if_pos h]
    exact ⟨rfl, rfl⟩
  · intro req
    constructor
    · intro h
      have h2 : ¬ (req.cost_of_equity - req.ts_terminal_growth_rate > 0) := not_lt.mpr h
      simp only [main.recalculate_ddm]
      rw [if_neg h2]
      exact pyRound_zero 2
    · intro h
      have h2 : ¬ (req.cost_of_equity - req.ggm_growth_rate > 0) := not_lt.mpr h
      simp only [main.recalculate_ddm]
      rw [if_neg (fun hc => h2 hc.1)]
      exact pyRound_zero 2

/-- Claim C3 witness: the zero-component guard evaluated at concrete
non-positive spreads in all three cited places. -/
theorem claim_C3_witness :
  (ddm._compute_ggm 3 (1/10) (1/5) = 0) ∧
  ((ddm._compute_two_stage 1 (1/10) 5 (1/5) (1/10)).2.1 = 0) ∧
  ((ddm._compute_two_stage 1 (1/10) 5 (1/5) (1/10)).2.2 = (ddm._compute_two_stage 1 (1/10) 5 (1/5) (1/10)).1) ∧
  ((main.recalculate_ddm ⟨1, 10, 1/10, 1/10, 1/10, 5, 1/5⟩).ts_pv_terminal = 0) :=
  ⟨claim_C3_zero_guard.1 3 (1/10) (1/5) (by norm_num),
   (claim_C3_zero_guard.2.1 1 (1/10) (1/5) (1/10) 5 (by norm_num)).1,
   (claim_C3_zero_guard.2.1 1 (1/10) (1/5) (1/10) 5 (by norm_num)).2,
   (claim_C3_zero_guard.2.2 ⟨1, 10, 1/10, 1/10, 1/10, 5, 1/5⟩).1 (by norm_num)⟩

/-- Claim C4: in the Gordon Growth model, every growth rate at or above
the cost of equity produces an intrinsic value of exactly 0 (the model
is total on rationals, so no infinity, NaN or division error can
occur); and in the two-stage model a non-positive cost of equity minus
terminal growth makes the terminal component 0 and the intrinsic value
equal to the stage-1 present value. -/
theorem claim_C4_nonpositive_denominator :
  (∀ d1 re g : ℚ, re ≤ g → ddm._compute_ggm d1 re g = 0) ∧
  (∀ dps g1 g2 re : ℚ, ∀ n : ℕ, re - g2 ≤ 0 →
    (ddm._compute_two_stage dps g1 n g2 re).2.1 = 0 ∧
    (ddm._compute_two_stage dps g1 n g2 re).2.2 = (ddm._compute_two_stage dps g1 n g2 re).1) := by
  constructor
  · intro d1 re g h
    simp only [ddm._compute_ggm]
    rw [if_pos (Or.inl (by linarith))]
  · intro dps g1 g2 re n h
    simp only [ddm._compute_two_stage]
    rw [if_pos h]
    exact ⟨rfl, rfl⟩

/-- Claim C4 witness: the guards evaluated at g = Re = 0.08 for the
Gordon Growth model and at Re = g2 = 0.12 for the two-stage model. -/
theorem claim_C4_witness :
  (ddm._compute_ggm 2 (8/100) (8/100) = 0) ∧
  ((ddm._compute_two_stage 2 (1/10) 5 (12/100) (12/100)).2.1 = 0) ∧
  ((ddm._compute_two_stage 2 (1/10) 5 (12/100) (12/100)).2.2 = (ddm._compute_two_stage 2 (1/10) 5 (12/100) (12/100)).1) :=
  ⟨claim_C4_nonpositive_denominator.1 2 (8/100) (8/100) (le_refl _),
   (claim_C4_nonpositive_denominator.2 2 (1/10) (12/100) (12/100) 5 (by norm_num)).1,
   (claim_C4_nonpositive_denominator.2 2 (1/10) (12/100) (12/100) 5 (by norm_num)).2⟩

/-- Claim C5: the DCF recalculation endpoint accepts exactly 5-element
per-year override arrays for growth, margin, tax, capex percent, D and A
percent, and shares growth: whenever one of the six arrays has a length
other than 5 the endpoint fails with a validation error whose detail
message begins with the name of an offending array, and whenever all six
have length 5 it returns a value of the valuation-bridge response shape
(intrinsic value, upside/downside, pv_fcfs, pv_terminal_value,
equity_value). -/
theorem claim_C5_recalc_contract (req : main.RecalculateRequest) :
  ((∃ p ∈ main.list_fields req, (p.2).length ≠ 5) →
    ∃ p ∈ main.list_fields req, (p.2).length ≠ 5 ∧
      ∃ rest, main.recalculate_dcf req = Except.error (p.1 ++ rest)) ∧
  ((∀ p ∈ main.list_fields req, (p.2).length = 5) →
    ∃ resp : main.RecalculateResponse, main.recalculate_dcf req = Except.ok resp) := by
  constructor
  · intro h
    obtain ⟨p, hp, hlen, rest, hrest⟩ := checkLists_bad h
    refine ⟨p, hp, hlen, rest, ?_⟩
    simp only [main.recalculate_dcf, hrest]
  · intro h
    have hnone := checkLists_eq_none h
    unfold main.recalculate_dcf
    rw [hnone]
    exact ⟨_, rfl⟩

/-- Claim C5 witness: a request whose growth_rates array has length 4 is
rejected with a message naming an offending array, and a request whose
six arrays all have length 5 produces a response. -/
theorem claim_C5_witness :
  (∃ p ∈ main.list_fields ⟨0, 0, 0, [0, 0, 0, 0], List.replicate 5 0, List.replicate 5 0, List.replicate 5 0, List.replicate 5 0, List.replicate 5 0, 0, 0, 0⟩,
    (p.2).length ≠ 5 ∧
      ∃ rest, main.recalculate_dcf ⟨0, 0, 0, [0, 0, 0, 0], List.replicate 5 0, List.replicate 5 0, List.replicate 5 0, List.replicate 5 0, List.replicate 5 0, 0, 0, 0⟩ = Except.error (p.1 ++ rest)) ∧
  (∃ resp : main.RecalculateResponse,
    main.recalculate_dcf ⟨0, 0, 0, List.replicate 5 0, List.replicate 5 0, List.replicate 5 0, List.replicate 5 0, List.replicate 5 0, List.replicate 5 0, 0, 0, 0⟩ = Except.ok resp) :=
  ⟨(claim_C5_recalc_contract _).1 ⟨("growth_rates", [0, 0, 0, 0]), by simp [main.list_fields], by norm_num⟩,
   (claim_C5_recalc_contract _).2 (by intro p hp; simp [main.list_fields] at hp; rcases hp with h | h | h | h | h | h <;> simp [h])⟩

/-- Claim C6: sector resolution is a total function on strings with
first-match-wins, case-insensitive substring matching: the label
Software—Application resolves to the Technology policy (growth cap 0.40,
recency bias 2.0), the empty label resolves to the default policy
(growth cap 40 percent, growth floor 3 percent, no WACC cap, DCF deemed
appropriate), and every string resolves to one of the six fixed
policies, so the resolver always returns a value and never fails. -/
theorem claim_C6_sector_resolution :
  industry_config.get_sector_rules ("Software—Application") = industry_config._TECHNOLOGY ∧
  industry_config._TECHNOLOGY.growth_cap = 40 / 100 ∧
  industry_config._TECHNOLOGY.growth_recency_bias = 2 ∧
  industry_config.get_sector_rules ("") = industry_config._DEFAULT ∧
  industry_config._DEFAULT.growth_cap = 40 / 100 ∧
  industry_config._DEFAULT.growth_floor = 3 / 100 ∧
  industry_config._DEFAULT.wacc_cap = none ∧
  industry_config._DEFAULT.dcf_appropriate = true ∧
  (∀ s : String,
    industry_config.get_sector_rules s = industry_config._TECHNOLOGY ∨
    industry_config.get_sector_rules s = industry_config._ENERGY ∨
    industry_config.get_sector_rules s = industry_config._FINANCIALS ∨
    industry_config.get_sector_rules s = industry_config._HEALTHCARE ∨
    industry_config.get_sector_rules s = industry_config._CONSUMER_STAPLES ∨
    industry_config.get_sector_rules s = industry_config._DEFAULT) := by
  refine ⟨rfl, rfl, rfl, rfl, rfl, rfl, rfl, rfl, ?_⟩
  intro s
  simp only [industry_config.get_sector_rules]
  split_ifs <;> tauto

/-- Claim C7: the comps median of the empty list is none; the median of
[4, 8] is 6; the median of [1, 2, 3] is 2; missing and non-positive
values are filtered out before ranking (pre-filtering the input changes
nothing); an even-count filtered list yields the mean of the two middle
values of the sorted list; and the peer medians never include the target
entity even when it is present in the full entity list (dropping the
target entries changes nothing). -/
theorem claim_C7_median :
  comps._median ([] : List (Option ℚ)) = none ∧
  comps._median [some 4, some 8] = some 6 ∧
  comps._median [some 1, some 2, some 3] = some 2 ∧
  (∀ values : List (Option ℚ),
    comps._median values =
      comps._median ((((values.filterMap id).filter (fun v => decide (0 < v))).map some))) ∧
  (∀ values : List (Option ℚ), ∀ clean : List ℚ,
    clean = List.insertionSort (· ≤ ·) ((values.filterMap id).filter (fun v => decide (0 < v))) →
    clean ≠ [] → clean.length % 2 = 0 →
    comps._median values = some ((clean.getD (clean.length / 2 - 1) 0 + clean.getD (clean.length / 2) 0) / 2)) ∧
  (∀ entries : List comps.CompEntry,
    comps.peer_medians entries = comps.peer_medians (entries.filter (fun e => !e.is_target))) := by
  refine ⟨?_, ?_, ?_, median_filter_stable, ?_, ?_⟩
  · rfl
  · norm_num [comps._median, List.insertionSort, List.orderedInsert]
    simp
  · norm_num [comps._median, List.insertionSort, List.orderedInsert]
    simp
  · intro values clean hclean hne heven
    simp only [comps._median]
    rw [← hclean]
    rw [if_neg hne, if_pos heven]
  · intro entries
    simp only [comps.peer_medians, List.filter_filter, Bool.and_self]

/-- Claim C7 witness: the even-count rule evaluated on
[some 4, none, some 8], whose filtered sorted list is [4, 8]. -/
theorem claim_C7_witness :
  comps._median [some 4, none, some 8] =
    some ((([4, 8] : List ℚ).getD (2 / 2 - 1) 0 + ([4, 8] : List ℚ).getD (2 / 2) 0) / 2) :=
  claim_C7_median.2.2.2.2.1 [some 4, none, some 8] [4, 8]
    (by norm_num [List.insertionSort, List.orderedInsert]) (by simp) (by norm_num)

/-- Claim C8: with base revenue 121 (from the series 100, 110, 121),
uniform 10 percent revenue growth, 20 percent operating margin,
21 percent tax rate, zero interest expense, capex 5 percent of revenue,
D and A 3 percent of revenue, zero shares growth, cost of equity
8 percent, exit P/E 20 and base diluted shares 100, the 5-year
projection produces Year-1 projected revenue 133.1; the terminal value
is Year-5 net income times 20 (Year-5 net income being
121 times 1.1 to the 5th times 0.2 times 0.79, discounted back 5 years
at 8 percent to form the pv_terminal_value output); and the intrinsic
value per share is strictly positive (and, being a rational, finite). -/
theorem claim_C8_scenario :
  (dcf.initialProjState 121 100 0 (1/10) (1/5) (21/100) (1/20) (3/100) 0 (8/100)).revenues.getD 0 0 = 1331/10 ∧
  (dcf.initialProjState 121 100 0 (1/10) (1/5) (21/100) (1/20) (3/100) 0 (8/100)).last_net_income
      = 121 * (11/10)^5 * (1/5) * (79/100) ∧
  (dcf._compute_initial_projections 121 100 0 (1/10) (1/5) (21/100) (1/20) (3/100) 0 20 (8/100)).2.1
      = ((dcf.initialProjState 121 100 0 (1/10) (1/5) (21/100) (1/20) (3/100) 0 (8/100)).last_net_income * 20) / (1 + 8/100)^5 ∧
  0 < (dcf._compute_initial_projections 121 100 0 (1/10) (1/5) (21/100) (1/20) (3/100) 0 20 (8/100)).2.2.2 := by
  refine ⟨?_, ?_, ?_, ?_⟩
  · norm_num [dcf.initialProjState, dcf.projYear, PROJECTION_YEARS, List.range_succ]
  · norm_num [dcf.initialProjState, dcf.projYear, PROJECTION_YEARS, List.range_succ]
  · norm_num [dcf._compute_initial_projections, dcf.initialProjState, dcf.projYear, PROJECTION_YEARS, List.range_succ]
  · norm_num [dcf._compute_initial_projections, dcf.initialProjState, dcf.projYear, PROJECTION_YEARS, List.range_succ]

/-- Claim C9: in the DDM assumption derivation, year-over-year DPS
growth observations outside [-0.50, 1.00] are discarded before averaging
(pre-filtering the observations changes neither derived rate), and when
no observation survives the filter both the simple-average and the
recency-weighted dividend growth rate default to 0.02, which is neither
zero nor the default sector growth floor. -/
theorem claim_C9_growth_filter :
  (∀ rates : List ℚ,
    ddm.avg_dps_growth rates = ddm.avg_dps_growth (ddm.clean_growth_rates rates) ∧
    ddm.weighted_dps_growth rates = ddm.weighted_dps_growth (ddm.clean_growth_rates rates)) ∧
  (∀ rates : List ℚ, (∀ g ∈ rates, g < -(1 : ℚ) / 2 ∨ 1 < g) →
    ddm.avg_dps_growth rates = 2 / 100 ∧ ddm.weighted_dps_growth rates = 2 / 100) ∧
  (2 : ℚ) / 100 ≠ 0 ∧
  (2 : ℚ) / 100 ≠ industry_config._DEFAULT.growth_floor := by
  refine ⟨?_, ?_, by norm_num, by norm_num [industry_config._DEFAULT]⟩
  · intro rates
    constructor
    · simp only [ddm.avg_dps_growth, clean_growth_rates_idem]
    · simp only [ddm.weighted_dps_growth, clean_growth_rates_idem]
  · intro rates h
    have hclean : ddm.clean_growth_rates rates = [] := by
      rw [ddm.clean_growth_rates, List.filter_eq_nil_iff]
      intro g hg
      rcases h g hg with hlt | hgt
      · simp only [Bool.and_eq_true, decide_eq_true_eq, not_and]
        intro hle
        linarith
      · simp only [Bool.and_eq_true, decide_eq_true_eq, not_and]
        intro hle
        linarith
    constructor
    · simp [ddm.avg_dps_growth, hclean]
    · simp [ddm.weighted_dps_growth, hclean]

/-- Claim C9 witness: with both observations outside [-0.50, 1.00] the
two derived growth rates fall back to 0.02. -/
theorem claim_C9_witness :
  ddm.avg_dps_growth [2, -3] = 2 / 100 ∧ ddm.weighted_dps_growth [2, -3] = 2 / 100 :=
  claim_C9_growth_filter.2.1 [2, -3]
    (by intro g hg; rcases List.mem_cons.mp hg with rfl | hg2
        · right; norm_num
        · rcases List.mem_cons.mp hg2 with rfl | hg3
          · left; norm_num
          · simp at hg3)

/-- Claim C10: the per-share division is guarded in both DCF code paths:
for every input with base diluted shares at most 0, the initial
projection function returns intrinsic value 0, and every successful
recalculation response for such a request carries intrinsic value 0;
no division by the non-positive share count is performed. -/
theorem claim_C10_shares_guard :
  (∀ base_revenue base_diluted_shares interest_expense revenue_growth op_margin tax_rate capex_pct da_pct shares_growth exit_pe cost_of_equity : ℚ,
    base_diluted_shares ≤ 0 →
    (dcf._compute_initial_projections base_revenue base_diluted_shares interest_expense revenue_growth op_margin tax_rate capex_pct da_pct shares_growth exit_pe cost_of_equity).2.2.2 = 0) ∧
  (∀ (req : main.RecalculateRequest) (resp : main.RecalculateResponse),
    req.base_diluted_shares ≤ 0 → main.recalculate_dcf req = Except.ok resp →
    resp.intrinsic_value = 0) := by
  constructor
  · intro brv bsh ie g m tr cp dp sg pe re h
    simp only [dcf._compute_initial_projections]
    rw [if_neg (not_lt.mpr h)]
  · intro req resp h hok
    unfold main.recalculate_dcf at hok
    cases hc : main.checkLists (main.list_fields req) with
    | some msg => rw [hc] at hok; exact absurd hok (by simp)
    | none =>
      rw [hc] at hok
      have hresp := Except.ok.inj hok
      rw [← hresp]
      simp only []
      rw [if_neg (not_lt.mpr h)]
      exact pyRound_zero 2

/-- Claim C10 witness: the guard evaluated at share count 0, for the
initial projection at concrete inputs and for a valid all-zero
recalculation request. -/
theorem claim_C10_witness :
  (dcf._compute_initial_projections 1 0 0 0 0 0 0 0 0 20 (8/100)).2.2.2 = 0 ∧
  (⟨0, 0, 0, 0, 0⟩ : main.RecalculateResponse).intrinsic_value = 0 :=
  ⟨claim_C10_shares_guard.1 1 0 0 0 0 0 0 0 0 20 (8/100) (le_refl 0),
   claim_C10_shares_guard.2
     ⟨1, 0, 0, List.replicate 5 0, List.replicate 5 0, List.replicate 5 0, List.replicate 5 0, List.replicate 5 0, List.replicate 5 0, 20, 8/100, 0⟩
     ⟨0, 0, 0, 0, 0⟩ (le_refl 0)
     (by norm_num [main.recalculate_dcf, main.checkLists, main.list_fields, PROJECTION_YEARS, List.range_succ, pyRound_zero])⟩
